import Mathlib

/-!
Verification of the IR-report pass in `src/skeleton/Skeleton.cpp`.

The development shallowly embeds the pass: the IR object graph
(Module, Function, BasicBlock, Instruction, Value) becomes plain Lean
structures; the `run` method becomes a pure function from a Module to the
list of emitted output lines together with the value returned to the
pass manager.  Each `errs() << ...` statement of the source contributes
its text, one list element per emitted line.
-/

namespace LLVMSkeleton

/-- Textual view of an `llvm::Type`: the report only streams a type's
canonical printed form and never inspects its structure. -/
structure LLVMType where
  text : String
deriving DecidableEq

/-- Which `dyn_cast`s succeed on a `Value` used as a return operand:
an instruction result, a `ConstantInt` (carrying its `getSExtValue`),
a function argument, or any other value. -/
inductive ValueSort where
  | instructionResult
  | constantInt (sext : Int)
  | argument
  | otherValue
deriving DecidableEq

/-- An `llvm::Value` as the report sees it: its sort (driving the
`dyn_cast<Instruction>` / `dyn_cast<ConstantInt>` tests at lines
133-137), its optional name (`hasName` / `getName`), the text that
`errs() << *v` prints, and its type. -/
structure Value where
  sort : ValueSort
  name : Option String
  text : String
  type : LLVMType
deriving DecidableEq

/-- Placeholder operand for an out-of-range `getOperand` access (the
C++ asserts in that case; the report never performs such an access on
well-formed IR). -/
def undefValue : Value := ⟨ValueSort.otherValue, none, "", ⟨""⟩⟩

/-- Instruction opcodes, covering each `dyn_cast` class the pass tests:
binary arithmetic, alloca, load, store, call, br, ret, icmp/fcmp, the
cast opcodes, and several opcodes that reach only the `Operator`
branch. -/
inductive Opcode where
  | add | sub | mul | sdiv | udiv | srem
  | alloca | load | store
  | call | br | ret
  | icmp | fcmp
  | trunc | zext | sext | fptosi | sitofp | bitcast | ptrtoint | inttoptr
  | getelementptr | phi | select | freeze
deriving DecidableEq

/-- Integer-comparison predicates of `ICmpInst::getPredicate` that the
switch at lines 148-156 inspects (the unsigned ones fall to `default`). -/
inductive IPred where
  | eq | ne | sgt | sge | slt | sle | ugt | uge | ult | ule
deriving DecidableEq

/-- A formal parameter of a Function (or of a call target's signature):
optional name plus type. -/
structure Param where
  name : Option String
  type : LLVMType
deriving DecidableEq

/-- The statically known callee of a direct call
(`call->getCalledFunction()`): its name and formal parameters. -/
structure Callee where
  name : String
  params : List Param
deriving DecidableEq

/-- An `llvm::Instruction` with every attribute the pass reads.  Fields
irrelevant to a given opcode are simply never consulted by the
renderer, mirroring the fact that the C++ only calls the accessors of
the class the `dyn_cast` produced. -/
structure Instruction where
  opcode : Opcode
  text : String
  operands : List Value
  resultType : LLVMType
  align : Nat
  allocatedType : LLVMType
  icmpPred : IPred
  condBr : Bool
  succNames : List (Option String)
  callee : Option Callee
  callArgs : List Value
  calledOperand : Value
  returnValue : Option Value
deriving DecidableEq

/-- A basic block: optional name and its instructions in order. -/
structure BasicBlock where
  name : Option String
  instructions : List Instruction
deriving DecidableEq

/-- An `llvm::Function`: name, return type, parameters, and body blocks
(empty for a declaration). -/
structure Function where
  name : String
  returnType : LLVMType
  params : List Param
  blocks : List BasicBlock
deriving DecidableEq

/-- The target data layout, used only through
`DataLayout::getTypeAllocSize`; `none` models a type with no computable
allocation size. -/
structure DataLayout where
  typeAllocSize : LLVMType → Option Nat

/-- An `llvm::Module`: name, the data layout the host supplied, and the
functions in order. -/
structure Module where
  name : String
  dataLayout : DataLayout
  functions : List Function

/-- The value `run` hands back to the pass manager. -/
inductive PreservedAnalyses where
  | all
  | notAll
deriving DecidableEq

/-- Everything observable about one invocation of the pass: the emitted
lines, the module as it stands afterwards, and the returned
`PreservedAnalyses`. -/
structure RunResult where
  output : List String
  finalModule : Module
  preserved : PreservedAnalyses

/-- `isa<BinaryOperator>`: the opcode is one of the binary arithmetic
opcodes. -/
def isBinaryOperator (I : Instruction) : Bool :=
  match I.opcode with
  | Opcode.add => true
  | Opcode.sub => true
  | Opcode.mul => true
  | Opcode.sdiv => true
  | Opcode.udiv => true
  | Opcode.srem => true
  | _ => false

/-- `isa<AllocaInst>`. -/
def isAllocaInst (I : Instruction) : Bool :=
  match I.opcode with
  | Opcode.alloca => true
  | _ => false

/-- `isa<LoadInst>`. -/
def isLoadInst (I : Instruction) : Bool :=
  match I.opcode with
  | Opcode.load => true
  | _ => false

/-- `isa<StoreInst>`. -/
def isStoreInst (I : Instruction) : Bool :=
  match I.opcode with
  | Opcode.store => true
  | _ => false

/-- `isa<CallInst>`. -/
def isCallInst (I : Instruction) : Bool :=
  match I.opcode with
  | Opcode.call => true
  | _ => false

/-- `isa<BranchInst>`. -/
def isBranchInst (I : Instruction) : Bool :=
  match I.opcode with
  | Opcode.br => true
  | _ => false

/-- `isa<ReturnInst>`. -/
def isReturnInst (I : Instruction) : Bool :=
  match I.opcode with
  | Opcode.ret => true
  | _ => false

/-- `isa<CmpInst>`: integer or floating comparison. -/
def isCmpInst (I : Instruction) : Bool :=
  match I.opcode with
  | Opcode.icmp => true
  | Opcode.fcmp => true
  | _ => false

/-- `isa<ICmpInst>`. -/
def isICmpInst (I : Instruction) : Bool :=
  match I.opcode with
  | Opcode.icmp => true
  | _ => false

/-- `isa<CastInst>`: the opcode is one of the conversion opcodes. -/
def isCastInst (I : Instruction) : Bool :=
  match I.opcode with
  | Opcode.trunc => true
  | Opcode.zext => true
  | Opcode.sext => true
  | Opcode.fptosi => true
  | Opcode.sitofp => true
  | Opcode.bitcast => true
  | Opcode.ptrtoint => true
  | Opcode.inttoptr => true
  | _ => false

/-- `isa<Operator>`: `llvm::Operator::classof` accepts every
`Instruction` (and every `ConstantExpr`), so for the instructions the
loop visits this test always succeeds. -/
def isOperator (_ : Instruction) : Bool := true

/-- The eleven instruction kinds of §4.2, one per branch of the
`dyn_cast` cascade at lines 67-178. -/
inductive InstKind where
  | binaryArithmetic
  | stackAllocation
  | load
  | store
  | call
  | branch
  | ret
  | compare
  | cast
  | genericOperator
  | unknown
deriving DecidableEq

/-- The fixed precedence order of §4.2, i.e. the order of the branches
in the source. -/
def precedenceOrder : List InstKind :=
  [InstKind.binaryArithmetic, InstKind.stackAllocation, InstKind.load,
   InstKind.store, InstKind.call, InstKind.branch, InstKind.ret,
   InstKind.compare, InstKind.cast, InstKind.genericOperator,
   InstKind.unknown]

/-- The structural predicate each kind's branch tests: exactly the
`dyn_cast` guard of that branch; the `unknown` fallback matches
anything. -/
def structMatches (I : Instruction) : InstKind → Bool
  | InstKind.binaryArithmetic => isBinaryOperator I
  | InstKind.stackAllocation => isAllocaInst I
  | InstKind.load => isLoadInst I
  | InstKind.store => isStoreInst I
  | InstKind.call => isCallInst I
  | InstKind.branch => isBranchInst I
  | InstKind.ret => isReturnInst I
  | InstKind.compare => isCmpInst I
  | InstKind.cast => isCastInst I
  | InstKind.genericOperator => isOperator I
  | InstKind.unknown => true

/-- The classifier: the `dyn_cast` cascade of lines 67-178, first
successful test wins. -/
def classify (I : Instruction) : InstKind :=
  if isBinaryOperator I then InstKind.binaryArithmetic
  else if isAllocaInst I then InstKind.stackAllocation
  else if isLoadInst I then InstKind.load
  else if isStoreInst I then InstKind.store
  else if isCallInst I then InstKind.call
  else if isBranchInst I then InstKind.branch
  else if isReturnInst I then InstKind.ret
  else if isCmpInst I then InstKind.compare
  else if isCastInst I then InstKind.cast
  else if isOperator I then InstKind.genericOperator
  else InstKind.unknown

/-- The classification rule as §4.2 words it: the earliest kind in the
precedence list whose structural predicate matches (spec-side
definition, for comparison with `classify`). -/
def specFirstMatch (I : Instruction) : InstKind :=
  (precedenceOrder.find? (fun k => structMatches I k)).getD InstKind.unknown

/-- `Instruction::getOpcodeName` for the opcodes modelled here. -/
def opcodeName : Opcode → String
  | Opcode.add => "add"
  | Opcode.sub => "sub"
  | Opcode.mul => "mul"
  | Opcode.sdiv => "sdiv"
  | Opcode.udiv => "udiv"
  | Opcode.srem => "srem"
  | Opcode.alloca => "alloca"
  | Opcode.load => "load"
  | Opcode.store => "store"
  | Opcode.call => "call"
  | Opcode.br => "br"
  | Opcode.ret => "ret"
  | Opcode.icmp => "icmp"
  | Opcode.fcmp => "fcmp"
  | Opcode.trunc => "trunc"
  | Opcode.zext => "zext"
  | Opcode.sext => "sext"
  | Opcode.fptosi => "fptosi"
  | Opcode.sitofp => "sitofp"
  | Opcode.bitcast => "bitcast"
  | Opcode.ptrtoint => "ptrtoint"
  | Opcode.inttoptr => "inttoptr"
  | Opcode.getelementptr => "getelementptr"
  | Opcode.phi => "phi"
  | Opcode.select => "select"
  | Opcode.freeze => "freeze"

/-- The predicate text printed by the switch at lines 148-156: six
named integer predicates, everything else falls to `default` and prints
"Other". -/
def predName : IPred → String
  | IPred.eq => "Equal (==)"
  | IPred.ne => "Not Equal (!=)"
  | IPred.sgt => "Signed Greater Than (>)"
  | IPred.sge => "Signed Greater or Equal (>=)"
  | IPred.slt => "Signed Less Than (<)"
  | IPred.sle => "Signed Less or Equal (<=)"
  | _ => "Other"

/-- `getOperand i`. -/
def getOp (I : Instruction) (i : Nat) : Value :=
  I.operands.getD i undefValue

/-- `getSuccessor(i)->getName()`: the raw block name, which is the
empty string for an unnamed block (no placeholder is substituted at
lines 116-120). -/
def succName (I : Instruction) (i : Nat) : String :=
  (I.succNames.getD i none).getD ""

/-- The ternary `x.hasName() ? x.getName() : alt` used for arguments,
blocks and signature parameters. -/
def nameOr (o : Option String) (alt : String) : String :=
  match o with
  | some n => n
  | none => alt

/-- `AllocaInst::getAllocationSize(M.getDataLayout())`: the allocated
type's size under the module's data layout, `none` when no size is
computable. -/
def getAllocationSize (dl : DataLayout) (I : Instruction) : Option Nat :=
  dl.typeAllocSize I.allocatedType

/-- How streaming the optional allocation size renders: the numeric
value, or the text "None" when the optional is empty. -/
def optSizeText : Option Nat → String
  | some n => toString n
  | none => "None"

/-- One "Arg n: ..." line per actual call argument, numbered from 1
(loop at lines 95-99). -/
def argLines : Nat → List Value → List String
  | _, [] => []
  | n, v :: rest =>
      ("   │         Arg " ++ toString n ++ ": " ++ v.text) :: argLines (n + 1) rest

/-- One signature bullet per formal parameter of the direct callee
(loop at lines 103-106). -/
def sigParamLine (p : Param) : String :=
  "   │           • " ++ nameOr p.name "unnamed" ++ " : " ++ p.type.text

/-- One "Op[i]: ..." line per operand, indexed from 0 (loop at lines
171-173). -/
def opLines : Nat → List Value → List String
  | _, [] => []
  | n, v :: rest =>
      ("   │         Op[" ++ toString n ++ "]: " ++ v.text) :: opLines (n + 1) rest

/-- The per-kind detail lines of one instruction: the body of the
branch the cascade selected (lines 67-178). -/
def renderDetail (dl : DataLayout) (I : Instruction) : List String :=
  match classify I with
  | InstKind.binaryArithmetic =>
      ["   │      🔧 Binary Operation: " ++ opcodeName I.opcode,
       "   │         Operand 1: " ++ (getOp I 0).text,
       "   │         Operand 2: " ++ (getOp I 1).text]
  | InstKind.stackAllocation =>
      ["   │      📦 Stack Allocation (alloca)",
       "   │         Type: " ++ I.allocatedType.text,
       "   │         Size: " ++ optSizeText (getAllocationSize dl I) ++ " bytes",
       "   │         Alignment: " ++ toString I.align ++ " bytes"]
  | InstKind.load =>
      ["   │      📥 Load from Memory",
       "   │         Source: " ++ (getOp I 0).text,
       "   │         Type: " ++ I.resultType.text,
       "   │         Alignment: " ++ toString I.align ++ " bytes"]
  | InstKind.store =>
      ["   │      📤 Store to Memory",
       "   │         Value: " ++ (getOp I 0).text,
       "   │         Destination: " ++ (getOp I 1).text,
       "   │         Alignment: " ++ toString I.align ++ " bytes"]
  | InstKind.call =>
      match I.callee with
      | some c =>
          ["   │      📞 Function Call: " ++ c.name ++ "()",
           "   │         Arguments: " ++ toString I.callArgs.length] ++
          argLines 1 I.callArgs ++
          ["   │         Target Function Signature:"] ++
          c.params.map sigParamLine
      | none =>
          ["   │      📞 Indirect Function Call",
           "   │         Target: " ++ I.calledOperand.text]
  | InstKind.branch =>
      if I.condBr then
        ["   │      🔀 Conditional Branch",
         "   │         Condition: " ++ (getOp I 0).text,
         "   │         True Block: " ++ succName I 0,
         "   │         False Block: " ++ succName I 1]
      else
        ["   │      ➡️  Unconditional Branch",
         "   │         Target: " ++ succName I 0]
  | InstKind.ret =>
      match I.returnValue with
      | some v =>
          "   │      🔙 Return Statement" ::
          ("   │         Type: " ++ v.type.text) ::
          (match v.name with
           | some n => ["   │         Value: " ++ n]
           | none =>
               "   │         Value: (unnamed temporary)" ::
               (match v.sort with
                | ValueSort.instructionResult =>
                    ["   │         Source: " ++ v.text]
                | ValueSort.constantInt k =>
                    ["   │         Constant: " ++ toString k]
                | _ => []))
      | none => ["   │      🔙 Return Statement (void)"]
  | InstKind.compare =>
      "   │      ⚖️  Comparison Instruction" ::
      ((if isICmpInst I then
          ["   │         Type: Integer Comparison",
           "   │         Predicate: " ++ predName I.icmpPred]
        else []) ++
       ["   │         Left Operand: " ++ (getOp I 0).text,
        "   │         Right Operand: " ++ (getOp I 1).text])
  | InstKind.cast =>
      ["   │      🔄 Cast Operation: " ++ opcodeName I.opcode,
       "   │         From: " ++ (getOp I 0).type.text,
       "   │         To: " ++ I.resultType.text,
       "   │         Source: " ++ (getOp I 0).text]
  | InstKind.genericOperator =>
      ["   │      ⚙️  Other Operator: " ++ opcodeName I.opcode,
       "   │         Operands: " ++ toString I.operands.length] ++
      opLines 0 I.operands
  | InstKind.unknown =>
      ["   │      ❓ Unknown Instruction Type",
       "   │         Opcode: " ++ opcodeName I.opcode]

/-- One instruction's full fragment: the numbered raw-text line
(line 64), the kind-specific detail, then the spacer of line 179. -/
def renderInstr (dl : DataLayout) (idx : Nat) (I : Instruction) : List String :=
  ("   │  [" ++ toString idx ++ "] " ++ I.text) :: renderDetail dl I ++ ["   │"]

/-- The instruction loop at lines 62-180, numbering from 1. -/
def renderInstrs (dl : DataLayout) : Nat → List Instruction → List String
  | _, [] => []
  | n, I :: rest => renderInstr dl n I ++ renderInstrs dl (n + 1) rest

/-- The block header line at lines 56-57 with the 1-based index and the
name-or-"unnamed" ternary. -/
def blockHeaderLine (idx : Nat) (bb : BasicBlock) : String :=
  "   ┌─ Basic Block #" ++ toString idx ++ ": " ++ nameOr bb.name "unnamed"

/-- A run of `n` copies of the character `c` (the decorative framing of
the report is made of such runs). -/
def repChar (c : Char) (n : Nat) : String :=
  String.mk (List.replicate n c)

/-- The closing separator of an interior block (line 184). -/
def interiorSep : String :=
  "   ├" ++ repChar '─' 53

/-- The closing separator of the function's final block (line 186). -/
def finalSep : String :=
  "   └" ++ repChar '─' 53

/-- One block's fragment: header, instruction count, spacer, the
instructions, then the separator chosen by the last-block test at
line 183 (positional form of `&BB != &F.back()`). -/
def renderBlock (dl : DataLayout) (idx total : Nat) (bb : BasicBlock) : List String :=
  (blockHeaderLine idx bb ::
   ("   │  Instructions: " ++ toString bb.instructions.length) ::
   "   │" ::
   renderInstrs dl 1 bb.instructions) ++
  [if idx = total then finalSep else interiorSep]

/-- The block loop at lines 54-188, numbering from 1. -/
def renderBlocks (dl : DataLayout) (total : Nat) : Nat → List BasicBlock → List String
  | _, [] => []
  | idx, bb :: rest => renderBlock dl idx total bb ++ renderBlocks dl total (idx + 1) rest

/-- `Function::isDeclaration`: the function has no body blocks. -/
def Function.isDeclaration (F : Function) : Bool :=
  F.blocks.isEmpty

/-- The parameter bullet at lines 31-32 / 47-48. -/
def paramLine (p : Param) : String :=
  "     • " ++ nameOr p.name "unnamed" ++ " : " ++ p.type.text

/-- The 78-character double-bar separator (lines 21 and 190). -/
def bar78 : String :=
  repChar '═' 78

/-- The 79-character double-bar of the closing banner (line 194). -/
def bar79 : String :=
  repChar '═' 79

/-- The declaration fragment at lines 26-35. -/
def renderDeclaration (F : Function) : List String :=
  ("📋 External Function Declaration: " ++ F.name ++ "()") ::
  ("   ↳ Return Type: " ++ F.returnType.text) ::
  ("   ↳ Parameters: " ++ toString F.params.length) ::
  (if F.params.length > 0 then F.params.map paramLine else []) ++
  [""]

/-- The definition header at lines 39-51, including the basic-block
count. -/
def renderDefinitionHeader (F : Function) : List String :=
  ("🔧 Function Definition: " ++ F.name ++ "()") ::
  ("   ↳ Return Type: " ++ F.returnType.text) ::
  ("   ↳ Parameters: " ++ toString F.params.length) ::
  ("   ↳ Basic Blocks: " ++ toString F.blocks.length) ::
  (if F.params.length > 0 then
     "   ↳ Function Arguments:" :: F.params.map paramLine
   else []) ++
  [""]

/-- One function's fragment: the declaration path (lines 25-37, which
`continue`s before the trailer) or the definition path with its blocks
and the trailer of line 190. -/
def renderFunction (dl : DataLayout) (F : Function) : List String :=
  if F.isDeclaration then renderDeclaration F
  else
    renderDefinitionHeader F ++
    renderBlocks dl F.blocks.length 1 F.blocks ++
    ["", bar78, ""]

/-- The function loop at lines 23-191. -/
def renderFunctions (dl : DataLayout) : List Function → List String
  | [] => []
  | F :: rest => renderFunction dl F ++ renderFunctions dl rest

/-- The opening banner at lines 16-21. -/
def openingLines (mname : String) : List String :=
  ["",
   "╔" ++ bar78 ++ "╗",
   "║" ++ repChar ' ' 27 ++ "🔍 LLVM MODULE ANALYSIS" ++ repChar ' ' 28 ++ "║",
   "╚" ++ bar78 ++ "╝",
   "📁 Module: " ++ mname,
   bar78,
   ""]

/-- The completion banner at lines 193-194. -/
def closingLines : List String :=
  ["✅ Analysis Complete!", bar79, ""]

/-- `SkeletonPass::run`: the whole pass.  It only appends text, so the
module comes back unchanged, and line 196 returns
`PreservedAnalyses::all()`. -/
def run (M : Module) : RunResult :=
  ⟨openingLines M.name ++ renderFunctions M.dataLayout M.functions ++ closingLines,
   M,
   PreservedAnalyses.all⟩

/-- A data layout under which every type has size 4. -/
def dlTriv : DataLayout := ⟨fun _ => some 4⟩

/-- A data layout under which no type has a computable size. -/
def dlNone : DataLayout := ⟨fun _ => none⟩

/-- An instruction of the given opcode with empty auxiliary fields. -/
def mkInstr (op : Opcode) : Instruction :=
  ⟨op, "", [], ⟨""⟩, 1, ⟨""⟩, IPred.eq, false, [], none, [], undefValue, none⟩

/-- A `ret` instruction returning the given value. -/
def retInstr (v : Value) : Instruction :=
  ⟨Opcode.ret, "", [v], ⟨"void"⟩, 1, ⟨""⟩, IPred.eq, false, [], none, [], undefValue, some v⟩

/-- An unconditional branch whose single successor has the given
optional name. -/
def brUncond (t : Option String) : Instruction :=
  ⟨Opcode.br, "", [], ⟨"void"⟩, 1, ⟨""⟩, IPred.eq, false, [t], none, [], undefValue, none⟩

/-- The unnamed literal `i32 42`, as a return operand. -/
def v42 : Value := ⟨ValueSort.constantInt 42, none, "i32 42", ⟨"i32"⟩⟩

/-- A floating-point comparison between two float literals. -/
def fcmpExample : Instruction :=
  ⟨Opcode.fcmp, "", [⟨ValueSort.otherValue, none, "float 1.0", ⟨"float"⟩⟩,
                     ⟨ValueSort.otherValue, none, "float 2.0", ⟨"float"⟩⟩],
   ⟨"i1"⟩, 1, ⟨""⟩, IPred.eq, false, [], none, [], undefValue, none⟩

/-- A signed-less-than integer comparison between two arguments. -/
def icmpExample : Instruction :=
  ⟨Opcode.icmp, "", [⟨ValueSort.argument, some "a", "i32 %a", ⟨"i32"⟩⟩,
                     ⟨ValueSort.argument, some "b", "i32 %b", ⟨"i32"⟩⟩],
   ⟨"i1"⟩, 1, ⟨""⟩, IPred.slt, false, [], none, [], undefValue, none⟩

/-- An alloca of an opaque type, whose allocation size the layout
cannot compute. -/
def allocaNoSize : Instruction :=
  ⟨Opcode.alloca, "%1 = alloca %opaque", [], ⟨"ptr"⟩, 8, ⟨"%opaque"⟩,
   IPred.eq, false, [], none, [], undefValue, none⟩

/-- A `ret void`. -/
def retVoidInstr : Instruction := mkInstr Opcode.ret

/-- An unnamed basic block. -/
def bbUnnamed : BasicBlock := ⟨none, []⟩

/-- A block named `entry` holding a single void return. -/
def bbEntry : BasicBlock := ⟨some "entry", [retVoidInstr]⟩

/-- An unnamed `i32` parameter. -/
def paramUnnamed : Param := ⟨none, ⟨"i32"⟩⟩

/-- A defined function with one block. -/
def defnF : Function := ⟨"main", ⟨"i32"⟩, [], [bbEntry]⟩

/-- An external declaration with one parameter and no blocks. -/
def declF : Function := ⟨"ext", ⟨"void"⟩, [paramUnnamed], []⟩

/-- A module whose only function allocates a type of uncomputable size
and then returns; its layout computes no sizes at all. -/
def badModule : Module :=
  ⟨"bad.ll", dlNone, [⟨"f", ⟨"void"⟩, [], [⟨some "entry", [allocaNoSize, retVoidInstr]⟩]⟩]⟩

/-- A module with no functions. -/
def emptyModule : Module := ⟨"empty.ll", dlTriv, []⟩

/-- Every kind occurs in the precedence list: §4.2 is a fixed set of
eleven kinds. -/
theorem mem_precedenceOrder : ∀ k : InstKind, k ∈ precedenceOrder := by
  intro k
  cases k <;> decide

/-- Claim C1: the classifier assigns every instruction exactly one kind
from the fixed set of eleven: it is total (the fallback guarantees a
match) and deterministic, and being a pure function of the instruction
it neither fails nor mutates it. -/
theorem classify_total :
    ∀ I : Instruction, classify I ∈ precedenceOrder ∧
      ∀ k k' : InstKind, classify I = k → classify I = k' → k = k' :=
  fun I => ⟨mem_precedenceOrder (classify I), fun _ _ h h' => h.symm.trans h'⟩

/-- Claim C1 witness: the theorem applied to a concrete `freeze`
instruction, its uniqueness hypotheses discharged at the kind the
classifier assigns. -/
theorem classify_total_instance :
    classify (mkInstr Opcode.freeze) ∈ precedenceOrder ∧
      InstKind.genericOperator = InstKind.genericOperator :=
  ⟨(classify_total (mkInstr Opcode.freeze)).1,
   (classify_total (mkInstr Opcode.freeze)).2
     InstKind.genericOperator InstKind.genericOperator rfl rfl⟩

/-- Claim C2: classification precedence is the fixed §4.2 order with
the first structural match winning — `classify` equals the spec's
first-match rule — and in particular an instruction matching both the
Cast and the GenericOperator predicates classifies as Cast, never as
GenericOperator. -/
theorem classify_precedence :
    ∀ I : Instruction, classify I = specFirstMatch I ∧
      (structMatches I InstKind.cast = true →
       structMatches I InstKind.genericOperator = true →
       classify I = InstKind.cast ∧ classify I ≠ InstKind.genericOperator) := by
  intro I
  obtain ⟨op, t, ops, rt, al, aty, pr, cb, sn, ce, ca, co, rv⟩ := I
  cases op <;>
    refine ⟨rfl, ?_⟩ <;>
    intro h h2 <;>
    first
      | exact ⟨rfl, fun hh => InstKind.noConfusion hh⟩
      | exact Bool.noConfusion h

/-- Claim C2 witness: a concrete `bitcast` matches both the Cast and
the GenericOperator predicates and classifies as Cast. -/
theorem classify_precedence_instance :
    structMatches (mkInstr Opcode.bitcast) InstKind.cast = true ∧
    structMatches (mkInstr Opcode.bitcast) InstKind.genericOperator = true ∧
    classify (mkInstr Opcode.bitcast) = InstKind.cast ∧
    classify (mkInstr Opcode.bitcast) ≠ InstKind.genericOperator :=
  ⟨rfl, rfl,
   ((classify_precedence (mkInstr Opcode.bitcast)).2 rfl rfl).1,
   ((classify_precedence (mkInstr Opcode.bitcast)).2 rfl rfl).2⟩

/-- Claim C3 counterexample: returning the unnamed literal constant 42
renders the "(unnamed temporary)" marker in addition to the constant,
so the integer is not rendered "rather than" the marker and the three
payloads are not mutually exclusive. -/
theorem return_constant_marker_cex :
    "   │         Value: (unnamed temporary)" ∈ renderDetail dlTriv (retInstr v42) ∧
    "   │         Constant: 42" ∈ renderDetail dlTriv (retInstr v42) := by
  constructor <;> decide

/-- Claim C3 as amended: a value-carrying return renders the result
type and then: the named value when the operand is named; otherwise the
"(unnamed temporary)" marker, followed in addition by the source
instruction's text when the operand is an instruction result, or by
the sign-extended literal integer when it is an integer constant. -/
theorem return_value_render :
    ∀ (dl : DataLayout) (v : Value),
      (∀ n : String, v.name = some n →
        renderDetail dl (retInstr v) =
          ["   │      🔙 Return Statement",
           "   │         Type: " ++ v.type.text,
           "   │         Value: " ++ n]) ∧
      (∀ k : Int, v.name = none → v.sort = ValueSort.constantInt k →
        renderDetail dl (retInstr v) =
          ["   │      🔙 Return Statement",
           "   │         Type: " ++ v.type.text,
           "   │         Value: (unnamed temporary)",
           "   │         Constant: " ++ toString k]) ∧
      (v.name = none → v.sort = ValueSort.instructionResult →
        renderDetail dl (retInstr v) =
          ["   │      🔙 Return Statement",
           "   │         Type: " ++ v.type.text,
           "   │         Value: (unnamed temporary)",
           "   │         Source: " ++ v.text]) := by
  intro dl v
  obtain ⟨s, nm, tx, ty⟩ := v
  refine ⟨?_, ?_, ?_⟩
  · intro n h
    have h' : nm = some n := h
    subst h'
    rfl
  · intro k h1 h2
    have h1' : nm = none := h1
    have h2' : s = ValueSort.constantInt k := h2
    subst h1'
    subst h2'
    rfl
  · intro h1 h2
    have h1' : nm = none := h1
    have h2' : s = ValueSort.instructionResult := h2
    subst h1'
    subst h2'
    rfl

/-- Claim C3 witness: the amended theorem at the concrete literal 42. -/
theorem return_value_render_instance :
    renderDetail dlTriv (retInstr v42) =
      ["   │      🔙 Return Statement",
       "   │         Type: i32",
       "   │         Value: (unnamed temporary)",
       "   │         Constant: 42"] :=
  (return_value_render dlTriv v42).2.1 42 rfl rfl

/-- Claim C4 counterexample: an unconditional branch to an unnamed
block renders the raw empty block name, not the "unnamed" placeholder. -/
theorem branch_target_placeholder_cex :
    renderDetail dlTriv (brUncond none) =
      ["   │      ➡️  Unconditional Branch", "   │         Target: "] ∧
    "   │         Target: unnamed" ∉ renderDetail dlTriv (brUncond none) :=
  ⟨rfl, by decide⟩

/-- Claim C4 as amended: unnamed blocks (in block headers) and unnamed
parameters render the explicit "unnamed" placeholder, and an unnamed
return value renders the "(unnamed temporary)" marker — never an error —
but branch target block names are rendered raw, so an unnamed target
renders as the empty string. -/
theorem unnamed_placeholder_render :
    ∀ (dl : DataLayout) (idx : Nat) (bb : BasicBlock) (p : Param) (t : Option String),
      (bb.name = none →
        blockHeaderLine idx bb = "   ┌─ Basic Block #" ++ toString idx ++ ": unnamed") ∧
      (p.name = none → paramLine p = "     • unnamed : " ++ p.type.text) ∧
      (∀ v : Value, v.name = none → v.sort = ValueSort.argument →
        renderDetail dl (retInstr v) =
          ["   │      🔙 Return Statement",
           "   │         Type: " ++ v.type.text,
           "   │         Value: (unnamed temporary)"]) ∧
      (t = none →
        renderDetail dl (brUncond t) =
          ["   │      ➡️  Unconditional Branch", "   │         Target: "]) := by
  intro dl idx bb p t
  obtain ⟨bn, bi⟩ := bb
  obtain ⟨pn, pt⟩ := p
  refine ⟨?_, ?_, ?_, ?_⟩
  · intro h
    have h' : bn = none := h
    subst h'
    show "   ┌─ Basic Block #" ++ toString idx ++ ": " ++ "unnamed" =
      "   ┌─ Basic Block #" ++ toString idx ++ ": unnamed"
    rw [String.append_assoc]
    rfl
  · intro h
    have h' : pn = none := h
    subst h'
    rfl
  · intro v h1 h2
    obtain ⟨s, nm, tx, ty⟩ := v
    have h1' : nm = none := h1
    have h2' : s = ValueSort.argument := h2
    subst h1'
    subst h2'
    rfl
  · intro h
    subst h
    rfl

/-- Claim C4 witness: the amended theorem at a concrete unnamed block,
unnamed parameter and unnamed branch target. -/
theorem unnamed_placeholder_render_instance :
    blockHeaderLine 2 bbUnnamed = "   ┌─ Basic Block #2: unnamed" ∧
    paramLine paramUnnamed = "     • unnamed : i32" ∧
    renderDetail dlTriv (brUncond none) =
      ["   │      ➡️  Unconditional Branch", "   │         Target: "] :=
  ⟨(unnamed_placeholder_render dlTriv 2 bbUnnamed paramUnnamed none).1 rfl,
   (unnamed_placeholder_render dlTriv 2 bbUnnamed paramUnnamed none).2.1 rfl,
   (unnamed_placeholder_render dlTriv 2 bbUnnamed paramUnnamed none).2.2.2 rfl⟩

/-- Claim C5 counterexample: on a module whose alloca has no computable
allocation size the pass does not fail or abort — the size renders as
"None", the following return instruction is still rendered, the
completion banner is still emitted, and the pass still reports all
analyses preserved. -/
theorem alloca_size_fatal_cex :
    "   │         Size: None bytes" ∈ (run badModule).output ∧
    "   │      🔙 Return Statement (void)" ∈ (run badModule).output ∧
    "✅ Analysis Complete!" ∈ (run badModule).output ∧
    (run badModule).preserved = PreservedAnalyses.all := by
  refine ⟨?_, ?_, ?_, rfl⟩ <;> decide

/-- Claim C5 as amended: a stack allocation whose allocated type has no
computable size under the active data layout is not fatal: its size is
rendered as the "None" placeholder and traversal continues — the report
always runs to completion (the closing banner is a suffix of the output
for every module) and all analyses are always reported preserved. -/
theorem alloca_size_not_fatal :
    ∀ (M : Module) (dl : DataLayout) (I : Instruction),
      (run M).preserved = PreservedAnalyses.all ∧
      closingLines <:+ (run M).output ∧
      (classify I = InstKind.stackAllocation → getAllocationSize dl I = none →
        "   │         Size: None bytes" ∈ renderDetail dl I) := by
  intro M dl I
  refine ⟨rfl, ⟨openingLines M.name ++ renderFunctions M.dataLayout M.functions, rfl⟩, ?_⟩
  intro h1 h2
  have hr : renderDetail dl I =
      ["   │      📦 Stack Allocation (alloca)",
       "   │         Type: " ++ I.allocatedType.text,
       "   │         Size: " ++ optSizeText (getAllocationSize dl I) ++ " bytes",
       "   │         Alignment: " ++ toString I.align ++ " bytes"] := by
    unfold renderDetail
    rw [h1]
  rw [hr, h2]
  exact List.mem_cons_of_mem _ (List.mem_cons_of_mem _ (List.mem_cons_self _ _))

/-- Claim C5 witness: the amended theorem at the concrete failing
module, its data layout and its alloca. -/
theorem alloca_size_not_fatal_instance :
    (run badModule).preserved = PreservedAnalyses.all ∧
    closingLines <:+ (run badModule).output ∧
    "   │         Size: None bytes" ∈ renderDetail dlNone allocaNoSize :=
  ⟨(alloca_size_not_fatal badModule dlNone allocaNoSize).1,
   (alloca_size_not_fatal badModule dlNone allocaNoSize).2.1,
   (alloca_size_not_fatal badModule dlNone allocaNoSize).2.2 rfl rfl⟩

/-- Claim C6: the pass leaves the IR module unchanged and
unconditionally returns the declaration that no analyses were
invalidated. -/
theorem run_preserves_module_and_analyses :
    ∀ M : Module, (run M).finalModule = M ∧ (run M).preserved = PreservedAnalyses.all :=
  fun _ => ⟨rfl, rfl⟩

/-- Claim C7: in a function with N blocks, a block at 1-based index
i < N closes with the interior separator and the block at index N
closes with the final separator; for N = 1 the single block closes with
the final separator. -/
theorem last_block_marker :
    ∀ (dl : DataLayout) (bb : BasicBlock) (i N : Nat),
      (1 ≤ i → i < N → (renderBlock dl i N bb).getLast? = some interiorSep) ∧
      (1 ≤ N → (renderBlock dl N N bb).getLast? = some finalSep) := by
  intro dl bb i N
  constructor
  · intro _ h2
    unfold renderBlock
    rw [if_neg (Nat.ne_of_lt h2), List.getLast?_concat]
  · intro _
    unfold renderBlock
    rw [if_pos rfl, List.getLast?_concat]

/-- Claim C7 witness: the theorem at a concrete block, as the interior
block 1 of 2 and as the single (final) block 1 of 1. -/
theorem last_block_marker_instance :
    (renderBlock dlTriv 1 2 bbEntry).getLast? = some interiorSep ∧
    (renderBlock dlTriv 1 1 bbEntry).getLast? = some finalSep :=
  ⟨(last_block_marker dlTriv bbEntry 1 2).1 (by decide) (by decide),
   (last_block_marker dlTriv bbEntry 1 1).2 (by decide)⟩

/-- Every block visited by the block loop contributes its header line,
at its 1-based position, to the loop's output. -/
theorem blockHeader_mem_renderBlocks :
    ∀ (dl : DataLayout) (total : Nat) (bs : List BasicBlock) (start i : Nat)
      (h : i < bs.length),
      blockHeaderLine (start + i) (bs.get ⟨i, h⟩) ∈ renderBlocks dl total start bs := by
  intro dl total bs
  induction bs with
  | nil =>
      intro start i h
      exact absurd h (Nat.not_lt_zero i)
  | cons b rest ih =>
      intro start i h
      cases i with
      | zero =>
          show blockHeaderLine (start + 0) b ∈
            renderBlock dl start total b ++ renderBlocks dl total (start + 1) rest
          rw [Nat.add_zero]
          exact List.mem_append_left _ (List.mem_append_left _ (List.mem_cons_self _ _))
      | succ j =>
          have hj : j < rest.length := Nat.lt_of_succ_lt_succ h
          have hmem := ih (start + 1) j hj
          have e : start + 1 + j = start + (j + 1) := by omega
          rw [e] at hmem
          exact List.mem_append_right _ hmem

/-- Claim C8: a function with zero blocks renders as the compact
declaration fragment — which reads only the name, return type and
parameters, so block traversal is skipped entirely — while a function
with at least one block renders the definition header (including the
block count) followed by every block in order. -/
theorem declaration_definition_split :
    ∀ (dl : DataLayout) (F : Function),
      (F.blocks = [] →
        renderFunction dl F = renderDeclaration F ∧
        ∀ gs : List BasicBlock,
          renderDeclaration F = renderDeclaration ⟨F.name, F.returnType, F.params, gs⟩) ∧
      (F.blocks ≠ [] →
        renderFunction dl F =
          renderDefinitionHeader F ++ renderBlocks dl F.blocks.length 1 F.blocks ++
            ["", bar78, ""] ∧
        ("   ↳ Basic Blocks: " ++ toString F.blocks.length) ∈ renderFunction dl F ∧
        ∀ i : Nat, ∀ h : i < F.blocks.length,
          blockHeaderLine (i + 1) (F.blocks.get ⟨i, h⟩) ∈ renderFunction dl F) := by
  intro dl F
  obtain ⟨fn, rt, ps, bs⟩ := F
  cases bs with
  | nil =>
      refine ⟨fun _ => ⟨rfl, fun gs => rfl⟩, fun h => ?_⟩
      have h' : ([] : List BasicBlock) ≠ [] := h
      exact absurd rfl h'
  | cons b rest =>
      refine ⟨fun h => ?_, fun _ => ⟨rfl, ?_, ?_⟩⟩
      · have h' : b :: rest = [] := h
        exact List.noConfusion h'
      · apply List.mem_append_left
        apply List.mem_append_left
        exact List.mem_cons_of_mem _ (List.mem_cons_of_mem _
          (List.mem_cons_of_mem _ (List.mem_cons_self _ _)))
      · intro i h
        apply List.mem_append_left
        apply List.mem_append_right
        have hmem := blockHeader_mem_renderBlocks dl (b :: rest).length (b :: rest) 1 i h
        have e : 1 + i = i + 1 := Nat.add_comm 1 i
        rw [e] at hmem
        exact hmem

/-- Claim C8 witness: the theorem at a concrete declaration (no blocks)
and a concrete definition (one block): the declaration renders the
compact fragment, and the definition emits its block's header. -/
theorem declaration_definition_split_instance :
    renderFunction dlTriv declF = renderDeclaration declF ∧
    blockHeaderLine 1 bbEntry ∈ renderFunction dlTriv defnF :=
  ⟨((declaration_definition_split dlTriv declF).1 rfl).1,
   ((declaration_definition_split dlTriv defnF).2 (by decide)).2.2 0 (by decide)⟩

/-- Claim C9 counterexample: a floating-point comparison renders only
the comparison header and the two operands — no comparison category
line and no predicate name line. -/
theorem compare_category_cex :
    renderDetail dlTriv fcmpExample =
      ["   │      ⚖️  Comparison Instruction",
       "   │         Left Operand: float 1.0",
       "   │         Right Operand: float 2.0"] ∧
    "   │         Type: Integer Comparison" ∉ renderDetail dlTriv fcmpExample :=
  ⟨rfl, by decide⟩

/-- Claim C9 as amended: an integer comparison renders the comparison
header, the "Integer Comparison" category, a predicate name (one of the
six named predicates or "Other"), and the two operands; a non-integer
comparison renders only the header and the two operands, with no
category or predicate line. -/
theorem compare_render :
    ∀ (dl : DataLayout) (I : Instruction),
      (I.opcode = Opcode.icmp →
        renderDetail dl I =
          ["   │      ⚖️  Comparison Instruction",
           "   │         Type: Integer Comparison",
           "   │         Predicate: " ++ predName I.icmpPred,
           "   │         Left Operand: " ++ (getOp I 0).text,
           "   │         Right Operand: " ++ (getOp I 1).text]) ∧
      (I.opcode = Opcode.fcmp →
        renderDetail dl I =
          ["   │      ⚖️  Comparison Instruction",
           "   │         Left Operand: " ++ (getOp I 0).text,
           "   │         Right Operand: " ++ (getOp I 1).text]) := by
  intro dl I
  obtain ⟨op, t, ops, rt, al, aty, pr, cb, sn, ce, ca, co, rv⟩ := I
  constructor
  · intro h
    have h' : op = Opcode.icmp := h
    subst h'
    rfl
  · intro h
    have h' : op = Opcode.fcmp := h
    subst h'
    rfl

/-- Claim C9 witness: the amended theorem at a concrete signed-less-than
integer comparison. -/
theorem compare_render_instance :
    renderDetail dlTriv icmpExample =
      ["   │      ⚖️  Comparison Instruction",
       "   │         Type: Integer Comparison",
       "   │         Predicate: Signed Less Than (<)",
       "   │         Left Operand: i32 %a",
       "   │         Right Operand: i32 %b"] :=
  (compare_render dlTriv icmpExample).1 rfl

/-- Claim C10: a module with zero functions still emits the opening
banner naming the module and the closing completion banner, with no
function, block or instruction fragment in between, and still returns
the all-analyses-preserved declaration. -/
theorem empty_module_report :
    ∀ M : Module, M.functions = [] →
      (run M).output = openingLines M.name ++ closingLines ∧
      ("📁 Module: " ++ M.name) ∈ (run M).output ∧
      "✅ Analysis Complete!" ∈ (run M).output ∧
      (run M).preserved = PreservedAnalyses.all := by
  intro M h
  have hout : (run M).output = openingLines M.name ++ closingLines := by
    show openingLines M.name ++ renderFunctions M.dataLayout M.functions ++ closingLines =
      openingLines M.name ++ closingLines
    rw [h]
    show openingLines M.name ++ ([] : List String) ++ closingLines =
      openingLines M.name ++ closingLines
    rw [List.append_nil]
  refine ⟨hout, ?_, ?_, rfl⟩
  · rw [hout]
    exact List.mem_append_left _ (List.mem_cons_of_mem _ (List.mem_cons_of_mem _
      (List.mem_cons_of_mem _ (List.mem_cons_of_mem _ (List.mem_cons_self _ _)))))
  · rw [hout]
    exact List.mem_append_right _ (List.mem_cons_self _ _)

/-- Claim C10 witness: the theorem at a concrete empty module. -/
theorem empty_module_report_instance :
    (run emptyModule).output = openingLines "empty.ll" ++ closingLines ∧
    (run emptyModule).preserved = PreservedAnalyses.all :=
  ⟨(empty_module_report emptyModule rfl).1, (empty_module_report emptyModule rfl).2.2.2⟩

end LLVMSkeleton
